import Mathlib

/-!
Formal model of the student speaking assessment report application.

The application reads one student's assessment record (an overall score and
four skill scores, each a number), classifies every score into a feedback
tier, color-codes it, renders progress bars, and draws two charts.  Scores
are JavaScript numbers; they are embedded here as rationals (`ℚ`), so every
comparison and arithmetic step of the source is represented exactly.

The definitions below are direct translations of the source:
  * `getFeedback`, `feedbackMap` and the five message records translate the
    `getFeedback` function of the frontend script (the category argument is
    an `Option String`: `none` models a call that omits the argument, whose
    default is `"overall"`; an unknown category makes the JavaScript
    property access `messages.excellent` throw, modelled by `Except.error`);
  * `classifyScore` is the five-way threshold cascade of `getFeedback`,
    named as the specification names it;
  * `getScoreClass` translates the CSS color-coding function;
  * `progressBarPercentage` translates the width computation of
    `updateProgressBar`;
  * `jsToFixed1` models `Number.prototype.toFixed(1)` as ECMAScript defines
    it (sign extracted first, then the integer nearest to `10·x`, ties to
    the larger integer), and `parseFixed1Value` is the exact rational value
    denoted by the decimal string `jsToFixed1` produces — the value
    re-parsing that string yields;
  * `displayStudentData` translates the DOM-updating function of the same
    name into a pure view-model builder, `createCharts` the chart data
    preparation;
  * `loadStudentData` translates the fetch-and-render entry point with the
    fetch outcome passed explicitly, and `studentReportEndpoint` the
    Express handler of GET /api/student-report.
-/

/-- The five feedback tiers of the score ranges documented in the source:
8.0+ excellent, 7.0–7.9 very good, 6.0–6.9 good, 5.0–5.9 moderate,
below 5.0 needs improvement. -/
inductive PerformanceTier where
  | excellent
  | veryGood
  | good
  | moderate
  | needsImprovement

/-- One category's five messages, one per score range: the shape of each
entry of the source's `feedbackMap` object literal. -/
structure FeedbackMessages where
  excellent : String
  veryGood : String
  good : String
  moderate : String
  needsImprovement : String

/-- The `overall` entry of the source's `feedbackMap`. -/
def overallMessages : FeedbackMessages where
  excellent := "Excellent performance! You demonstrate exceptional speaking abilities with strong control across all areas."
  veryGood := "Very good performance! You show strong speaking skills with minor areas for improvement."
  good := "Good performance with noticeable competence, though some inaccuracies are present."
  moderate := "Moderate performance. You can communicate but need significant improvement in several areas."
  needsImprovement := "Needs improvement. Focus on building fundamental speaking skills across all areas."

/-- The `pronunciation` entry of the source's `feedbackMap`. -/
def pronunciationMessages : FeedbackMessages where
  excellent := "Excellent pronunciation with clear and accurate articulation of sounds."
  veryGood := "Very good pronunciation with occasional minor errors that don't impede understanding."
  good := "Good pronunciation but some sounds need improvement for better clarity."
  moderate := "Pronunciation needs work; some words are unclear and may affect comprehension."
  needsImprovement := "Significant pronunciation challenges affecting overall clarity and understanding."

/-- The `fluency` entry of the source's `feedbackMap`. -/
def fluencyMessages : FeedbackMessages where
  excellent := "Excellent fluency with natural speech flow and minimal hesitation."
  veryGood := "Very good fluency with smooth delivery and only occasional pauses."
  good := "Good fluency though some hesitation and unnatural pauses are noticeable."
  moderate := "Fluency needs improvement; frequent hesitation affects the natural flow of speech."
  needsImprovement := "Significant fluency issues with many pauses and disrupted speech flow."

/-- The `vocabulary` entry of the source's `feedbackMap`. -/
def vocabularyMessages : FeedbackMessages where
  excellent := "Excellent vocabulary range with precise and sophisticated word choices."
  veryGood := "Very good vocabulary with appropriate word selection and variety."
  good := "Good vocabulary but limited range; occasional difficulty expressing complex ideas."
  moderate := "Vocabulary needs expansion; basic words used, limiting expression."
  needsImprovement := "Limited vocabulary significantly restricts communication ability."

/-- The `grammar` entry of the source's `feedbackMap`. -/
def grammarMessages : FeedbackMessages where
  excellent := "Excellent grammatical accuracy with sophisticated sentence structures."
  veryGood := "Very good grammar with minor errors that don't impede communication."
  good := "Good grammar but some errors in complex structures are noticeable."
  moderate := "Grammar needs improvement; errors are frequent and may affect clarity."
  needsImprovement := "Significant grammatical issues affecting overall comprehension."

/-- The source's `feedbackMap` object: the JavaScript property lookup
`feedbackMap[skillType]` yields `undefined` for a key other than the five
fixed ones, modelled by `none`. -/
def feedbackMap : String → Option FeedbackMessages
  | "overall" => some overallMessages
  | "pronunciation" => some pronunciationMessages
  | "fluency" => some fluencyMessages
  | "vocabulary" => some vocabularyMessages
  | "grammar" => some grammarMessages
  | _ => none

/-- The error condition for a feedback request with a category outside the
fixed five: in the source the lookup yields `undefined` and the property
access on it throws. -/
structure UnknownCategoryError where
  category : String

/-- The five-way threshold cascade of the source's `getFeedback`
(`score >= 8.0`, `>= 7.0`, `>= 6.0`, `>= 5.0`, else), under the name the
specification gives it. -/
def classifyScore (score : ℚ) : PerformanceTier :=
  if score ≥ 8 then .excellent
  else if score ≥ 7 then .veryGood
  else if score ≥ 6 then .good
  else if score ≥ 5 then .moderate
  else .needsImprovement

/-- The message a `FeedbackMessages` record holds for a tier: which field of
`messages` each branch of the source's cascade reads. -/
def tierMessage (m : FeedbackMessages) : PerformanceTier → String
  | .excellent => m.excellent
  | .veryGood => m.veryGood
  | .good => m.good
  | .moderate => m.moderate
  | .needsImprovement => m.needsImprovement

/-- The source's `getFeedback(score, skillType = 'overall')`.  `none` models
a call site that omits the second argument (the default `'overall'` then
applies); an unknown category is the lookup failure that would throw in the
source, promoted to an explicit error. -/
def getFeedback (score : ℚ) (skillType : Option String) : Except UnknownCategoryError String :=
  let st := skillType.getD "overall"
  match feedbackMap st with
  | none => .error ⟨st⟩
  | some messages =>
    if score ≥ 8 then .ok messages.excellent
    else if score ≥ 7 then .ok messages.veryGood
    else if score ≥ 6 then .ok messages.good
    else if score ≥ 5 then .ok messages.moderate
    else .ok messages.needsImprovement

/-- The five valid feedback categories, in the order of the source's
`feedbackMap` object literal. -/
def validCategories : List String :=
  ["overall", "pronunciation", "fluency", "vocabulary", "grammar"]

/-- The five tiers in descending score order. -/
def allTiers : List PerformanceTier :=
  [.excellent, .veryGood, .good, .moderate, .needsImprovement]

/-- All 25 feedback strings of the source's table (5 categories × 5 tiers),
category-major in source order. -/
def allFeedbackStrings : List String :=
  ([overallMessages, pronunciationMessages, fluencyMessages,
    vocabularyMessages, grammarMessages].map fun m => allTiers.map (tierMessage m)).flatten

/-- The source's `getScoreClass`: the coarser four-way color-coding cascade
(`score >= 8.0`, `>= 7.0`, `>= 6.0`, else). -/
def getScoreClass (score : ℚ) : String :=
  if score ≥ 8 then "score-excellent"
  else if score ≥ 7 then "score-good"
  else if score ≥ 6 then "score-fair"
  else "score-poor"

/-- The width `updateProgressBar` assigns: `(score / 9) * 100` per cent,
with no clamping. -/
def progressBarPercentage (score : ℚ) : ℚ := score / 9 * 100

/-- The integer of tenths `toFixed(1)` picks for a non-negative value: the
integer `n` for which `n / 10 - x` is as close to zero as possible, ties to
the larger `n` (ECMAScript Number.prototype.toFixed, step for `f = 1`). -/
def toFixed1Round (q : ℚ) : ℤ := ⌊q * 10 + 1/2⌋

/-- The decimal digits of a number of tenths: integer part, a dot, one
fractional digit. -/
def fixed1Digits (n : ℕ) : String := Nat.repr (n / 10) ++ "." ++ Nat.repr (n % 10)

/-- `(q).toFixed(1)` as ECMAScript defines it: a minus sign when `q < 0`,
then the digits of the nearest number of tenths of `|q|`. -/
def jsToFixed1 (q : ℚ) : String :=
  (if q < 0 then "-" else "") ++ fixed1Digits (toFixed1Round |q|).toNat

/-- The exact rational value the decimal string `jsToFixed1 q` denotes —
the value re-parsing that string yields. -/
def parseFixed1Value (q : ℚ) : ℚ :=
  (if q < 0 then (-1 : ℚ) else 1) * ((toFixed1Round |q| : ℚ) / 10)

/-- The `skills` object of the assessment record: four named skill scores. -/
structure SkillSet where
  pronunciation : ℚ
  fluency : ℚ
  vocabulary : ℚ
  grammar : ℚ

/-- The assessment record: the JSON shape served by GET /api/student-report
and read by the frontend. -/
structure AssessmentRecord where
  studentId : String
  studentName : String
  testDate : String
  overallScore : ℚ
  skills : SkillSet

/-- What `displayStudentData` writes for one skill: the formatted score
text, the element class, the progress-bar percentage, and the feedback
string (an error marker when the category lookup would throw). -/
structure SkillDisplay where
  scoreText : String
  className : String
  progressPercent : ℚ
  feedback : Except UnknownCategoryError String

/-- The per-skill block repeated four times in `displayStudentData`:
`toFixed(1)` text, `'skill-score ' + getScoreClass(score)`, the progress
bar update and the category feedback. -/
def displaySkill (score : ℚ) (category : String) : SkillDisplay where
  scoreText := jsToFixed1 score
  className := "skill-score " ++ getScoreClass score
  progressPercent := progressBarPercentage score
  feedback := getFeedback score (some category)

/-- The chart labels of `createCharts`, in source order. -/
def skillLabels : List String := ["Pronunciation", "Fluency", "Vocabulary", "Grammar"]

/-- The chart values of `createCharts`, in source order. -/
def skillValues (skills : SkillSet) : List ℚ :=
  [skills.pronunciation, skills.fluency, skills.vocabulary, skills.grammar]

/-- The (label, value) series both charts of `createCharts` plot: the labels
paired positionally with the values. -/
def createCharts (skills : SkillSet) : List (String × ℚ) :=
  List.zip skillLabels (skillValues skills)

/-- Everything `displayStudentData` writes to the page, as one value. -/
structure ViewModel where
  studentName : String
  testDate : String
  overallScoreText : String
  overallClassName : String
  overallDescription : Except UnknownCategoryError String
  overallFeedback : Except UnknownCategoryError String
  pronunciationDisplay : SkillDisplay
  fluencyDisplay : SkillDisplay
  vocabularyDisplay : SkillDisplay
  grammarDisplay : SkillDisplay
  chartSeries : List (String × ℚ)

/-- The source's `displayStudentData` as a pure view-model builder: each
field is exactly what the corresponding DOM update writes. -/
def displayStudentData (data : AssessmentRecord) : ViewModel where
  studentName := data.studentName
  testDate := data.testDate
  overallScoreText := jsToFixed1 data.overallScore
  overallClassName := "score-value " ++ getScoreClass data.overallScore
  overallDescription := getFeedback data.overallScore (some "overall")
  overallFeedback := getFeedback data.overallScore (some "overall")
  pronunciationDisplay := displaySkill data.skills.pronunciation "pronunciation"
  fluencyDisplay := displaySkill data.skills.fluency "fluency"
  vocabularyDisplay := displaySkill data.skills.vocabulary "vocabulary"
  grammarDisplay := displaySkill data.skills.grammar "grammar"
  chartSeries := createCharts data.skills

/-- The sample record of the repository's `data.json`, as documented in the
README and the server's endpoint comment. -/
def sampleRecord : AssessmentRecord where
  studentId := "STU001"
  studentName := "John Doe"
  testDate := "2024-12-20"
  overallScore := 15/2
  skills := { pronunciation := 8, fluency := 15/2, vocabulary := 7, grammar := 15/2 }

/-- Why a fetch of the record can fail: a non-OK HTTP response (the
`!response.ok` check), a network error from `fetch`, or a JSON parse error
from `response.json()`. -/
inductive RetrievalError where
  | httpNotOk (status : Nat)
  | networkError (msg : String)
  | parseError (msg : String)

/-- The outcome of fetching and parsing /api/student-report, passed to
`loadStudentData` explicitly. -/
inductive FetchOutcome where
  | success (data : AssessmentRecord)
  | failure (err : RetrievalError)

/-- What `loadStudentData` does to the page: either the full render of
`displayStudentData`, or the alert of the catch block. -/
inductive LoadResult where
  | rendered (vm : ViewModel)
  | alerted (message : String)

/-- The source's `loadStudentData`: on success it hands the data to
`displayStudentData`; any failure lands in the catch block, which alerts
and renders nothing. -/
def loadStudentData : FetchOutcome → LoadResult
  | .success data => .rendered (displayStudentData data)
  | .failure _ =>
      .alerted "Failed to load student data. Please make sure the server is running on port 3000."

/-- The response of GET /api/student-report: `res.json(studentData)`
(status 200) on success, or the 500 error body of the catch block. -/
inductive ApiResponse where
  | okJson (data : AssessmentRecord)
  | errorJson (status : Nat) (error : String) (message : String)

/-- The server's GET /api/student-report handler, with the result of
reading and parsing `data.json` passed explicitly: a read or parse error
lands in the catch block, which sends status 500 with an error body. -/
def studentReportEndpoint : Except String AssessmentRecord → ApiResponse
  | .ok data => .okJson data
  | .error msg => .errorJson 500 "Failed to load student data" msg

/-! ## Helper lemmas -/

/-- For a category present in `feedbackMap`, `getFeedback` returns the table
entry selected by the tier of the score: the if-cascade of `getFeedback`
and `classifyScore` are the same cascade. -/
theorem getFeedback_eq_tierMessage (score : ℚ) (st : String) (m : FeedbackMessages)
    (h : feedbackMap st = some m) :
    getFeedback score (some st) = .ok (tierMessage m (classifyScore score)) := by
  unfold getFeedback classifyScore
  simp only [Option.getD]
  rw [h]
  split_ifs <;> rfl

/-- A category outside the fixed five misses every literal key of
`feedbackMap` and falls to the default arm. -/
theorem feedbackMap_eq_none (c : String) (h : c ∉ validCategories) :
    feedbackMap c = none := by
  unfold feedbackMap
  split <;> simp_all [validCategories]

/-- A category of `validCategories` and its `feedbackMap` entry, with every
message of the entry non-empty. -/
theorem getFeedback_valid_aux (s : ℚ) (c : String) (m : FeedbackMessages)
    (hm : feedbackMap c = some m) (hne : ∀ t, tierMessage m t ≠ "") :
    ∃ msg, getFeedback s (some c) = .ok msg ∧ msg ≠ "" ∧
      (feedbackMap c).map (fun ms => tierMessage ms (classifyScore s)) = some msg :=
  ⟨tierMessage m (classifyScore s), getFeedback_eq_tierMessage s c m hm, hne _, by rw [hm]; rfl⟩

/-- Rounding to tenths sends a non-negative value to a non-negative count. -/
theorem toFixed1Round_nonneg (q : ℚ) (h : 0 ≤ q) : 0 ≤ toFixed1Round q := by
  rw [toFixed1Round]
  exact Int.le_floor.mpr (by push_cast; linarith)

/-! ## Claim theorems -/

/-- C1: `classifyScore` is a total deterministic function whose five tiers
partition the line with half-open lower boundaries: `s ≥ 8` is Excellent,
`7 ≤ s < 8` Very Good, `6 ≤ s < 7` Good, `5 ≤ s < 6` Moderate, `s < 5`
Needs Improvement; in particular 8.0 is Excellent, 7.999 Very Good, 5.0
Moderate and 4.999 Needs Improvement. -/
theorem classifyScore_five_way_partition (s : ℚ) :
    (s ≥ 8 → classifyScore s = .excellent) ∧
    (7 ≤ s ∧ s < 8 → classifyScore s = .veryGood) ∧
    (6 ≤ s ∧ s < 7 → classifyScore s = .good) ∧
    (5 ≤ s ∧ s < 6 → classifyScore s = .moderate) ∧
    (s < 5 → classifyScore s = .needsImprovement) ∧
    classifyScore 8 = .excellent ∧
    classifyScore (7999/1000) = .veryGood ∧
    classifyScore 5 = .moderate ∧
    classifyScore (4999/1000) = .needsImprovement := by
  refine ⟨?_, ?_, ?_, ?_, ?_, ?_, ?_, ?_, ?_⟩
  · intro h
    unfold classifyScore
    split_ifs <;> first | rfl | (exfalso; linarith)
  · intro h
    obtain ⟨h1, h2⟩ := h
    unfold classifyScore
    split_ifs <;> first | rfl | (exfalso; linarith)
  · intro h
    obtain ⟨h1, h2⟩ := h
    unfold classifyScore
    split_ifs <;> first | rfl | (exfalso; linarith)
  · intro h
    obtain ⟨h1, h2⟩ := h
    unfold classifyScore
    split_ifs <;> first | rfl | (exfalso; linarith)
  · intro h
    unfold classifyScore
    split_ifs <;> first | rfl | (exfalso; linarith)
  · norm_num [classifyScore]
  · norm_num [classifyScore]
  · norm_num [classifyScore]
  · norm_num [classifyScore]

/-- C1 witness: the partition applied at the concrete score 9. -/
theorem classifyScore_five_way_partition_witness :
    classifyScore 9 = PerformanceTier.excellent :=
  (classifyScore_five_way_partition 9).1 (by decide)

/-- C2: for every score and each of the five valid categories, `getFeedback`
returns the non-empty string the 25-entry table holds for
(category, `classifyScore` score); the 25 strings are pairwise distinct;
and every category outside the fixed five fails with an
`UnknownCategoryError` naming that category instead of returning a
string. -/
theorem getFeedback_total_catalog (s : ℚ) :
    (∀ c, c ∈ validCategories →
      ∃ msg, getFeedback s (some c) = .ok msg ∧ msg ≠ "" ∧
        (feedbackMap c).map (fun m => tierMessage m (classifyScore s)) = some msg) ∧
    allFeedbackStrings.length = 25 ∧
    allFeedbackStrings.Pairwise (· ≠ ·) ∧
    (∀ c, c ∉ validCategories → getFeedback s (some c) = .error ⟨c⟩) := by
  refine ⟨?_, by decide, by decide, ?_⟩
  · intro c hc
    simp only [validCategories, List.mem_cons, List.not_mem_nil, or_false] at hc
    rcases hc with rfl | rfl | rfl | rfl | rfl
    · exact getFeedback_valid_aux s _ overallMessages rfl (by intro t; cases t <;> decide)
    · exact getFeedback_valid_aux s _ pronunciationMessages rfl (by intro t; cases t <;> decide)
    · exact getFeedback_valid_aux s _ fluencyMessages rfl (by intro t; cases t <;> decide)
    · exact getFeedback_valid_aux s _ vocabularyMessages rfl (by intro t; cases t <;> decide)
    · exact getFeedback_valid_aux s _ grammarMessages rfl (by intro t; cases t <;> decide)
  · intro c hc
    unfold getFeedback
    simp only [Option.getD]
    rw [feedbackMap_eq_none c hc]

/-- C2 witness: at score 3 the category "unknown" fails with the error
naming it. -/
theorem getFeedback_total_catalog_witness :
    getFeedback 3 (some "unknown") = .error ⟨"unknown"⟩ :=
  (getFeedback_total_catalog 3).2.2.2 "unknown" (by decide)

/-- C3: `getScoreClass` is a total four-way classification with its own
thresholds (`≥ 8` excellent, `≥ 7` good, `≥ 6` fair, else poor), and its
partition differs from the five-way one: 5.5 and 4 share a color class but
not a performance tier. -/
theorem getScoreClass_four_way (s : ℚ) :
    (s ≥ 8 → getScoreClass s = "score-excellent") ∧
    (7 ≤ s ∧ s < 8 → getScoreClass s = "score-good") ∧
    (6 ≤ s ∧ s < 7 → getScoreClass s = "score-fair") ∧
    (s < 6 → getScoreClass s = "score-poor") ∧
    getScoreClass (11/2) = getScoreClass 4 ∧
    classifyScore (11/2) ≠ classifyScore 4 := by
  have e1 : classifyScore (11/2 : ℚ) = .moderate := by norm_num [classifyScore]
  have e2 : classifyScore (4 : ℚ) = .needsImprovement := by norm_num [classifyScore]
  refine ⟨?_, ?_, ?_, ?_, ?_, ?_⟩
  · intro h
    unfold getScoreClass
    split_ifs <;> first | rfl | (exfalso; linarith)
  · intro h
    obtain ⟨h1, h2⟩ := h
    unfold getScoreClass
    split_ifs <;> first | rfl | (exfalso; linarith)
  · intro h
    obtain ⟨h1, h2⟩ := h
    unfold getScoreClass
    split_ifs <;> first | rfl | (exfalso; linarith)
  · intro h
    unfold getScoreClass
    split_ifs <;> first | rfl | (exfalso; linarith)
  · norm_num [getScoreClass]
  · rw [e1, e2]
    exact fun h => nomatch h

/-- C3 witness: the four-way classification applied at the concrete
score 9. -/
theorem getScoreClass_four_way_witness :
    getScoreClass 9 = "score-excellent" :=
  (getScoreClass_four_way 9).1 (by decide)

/-- C4: at 6.5 the two classifiers disagree by design: the color class is
fair while the performance tier is Good, so the four-way and five-way
mappings are distinct functions. -/
theorem styleTier_and_classify_disagree_at_six_point_five :
    getScoreClass (13/2) = "score-fair" ∧ classifyScore (13/2) = .good := by
  constructor
  · norm_num [getScoreClass]
  · norm_num [classifyScore]

/-- The formatted text of the sample overall score 7.5. -/
theorem jsToFixed1_fifteen_halves : jsToFixed1 (15/2 : ℚ) = "7.5" := by
  have h0 : ¬ ((15/2 : ℚ) < 0) := by norm_num
  have h1 : toFixed1Round |(15/2 : ℚ)| = 75 := by
    rw [toFixed1Round, abs_of_nonneg (by norm_num : (0:ℚ) ≤ 15/2)]
    norm_num
  rw [jsToFixed1, if_neg h0, h1]
  rfl

/-- C5: the view model of the repository's sample record (overall 7.5,
pronunciation 8.0, fluency 7.5, vocabulary 7.0, grammar 7.5) shows the
overall score as the string "7.5" with the good color class, pronunciation
with the excellent color class and progress 8/9 of the bar, and grammar
with the good color class. -/
theorem displayStudentData_sample_record :
    (displayStudentData sampleRecord).overallScoreText = "7.5" ∧
    (displayStudentData sampleRecord).overallClassName = "score-value score-good" ∧
    (displayStudentData sampleRecord).pronunciationDisplay.className =
      "skill-score score-excellent" ∧
    (displayStudentData sampleRecord).pronunciationDisplay.progressPercent = 8 / 9 * 100 ∧
    (displayStudentData sampleRecord).grammarDisplay.className = "skill-score score-good" := by
  have hgood : getScoreClass (15/2 : ℚ) = "score-good" := by norm_num [getScoreClass]
  have hexc : getScoreClass (8 : ℚ) = "score-excellent" := by norm_num [getScoreClass]
  refine ⟨jsToFixed1_fifteen_halves, ?_, ?_, rfl, ?_⟩
  · show "score-value " ++ getScoreClass (15/2 : ℚ) = "score-value score-good"
    rw [hgood]
    rfl
  · show "skill-score " ++ getScoreClass (8 : ℚ) = "skill-score score-excellent"
    rw [hexc]
    rfl
  · show "skill-score " ++ getScoreClass (15/2 : ℚ) = "skill-score score-good"
    rw [hgood]
    rfl

/-- C6: the chart series of the view model pairs the four fixed labels, in
the order Pronunciation, Fluency, Vocabulary, Grammar, with the matching
skill scores of the input record. -/
theorem viewModel_chart_series (data : AssessmentRecord) :
    (displayStudentData data).chartSeries =
      [("Pronunciation", data.skills.pronunciation),
       ("Fluency", data.skills.fluency),
       ("Vocabulary", data.skills.vocabulary),
       ("Grammar", data.skills.grammar)] := rfl

/-- C7: when the fetch fails in any way the page alerts a user-visible
error and the presentation adapter is never invoked (no view model is
rendered), and the server answers a failed read or parse with the 500
error body. -/
theorem retrieval_failure_renders_nothing (err : RetrievalError) (msg : String) :
    loadStudentData (.failure err) =
      .alerted "Failed to load student data. Please make sure the server is running on port 3000." ∧
    (∀ vm, loadStudentData (.failure err) ≠ .rendered vm) ∧
    studentReportEndpoint (.error msg) = .errorJson 500 "Failed to load student data" msg :=
  ⟨rfl, fun _ h => LoadResult.noConfusion h, rfl⟩

/-- C7 witness: a simulated file-not-found read error and a 404 fetch. -/
theorem retrieval_failure_renders_nothing_witness :
    loadStudentData (.failure (.httpNotOk 404)) =
      .alerted "Failed to load student data. Please make sure the server is running on port 3000." :=
  (retrieval_failure_renders_nothing (.httpNotOk 404) "ENOENT").1

/-- The re-parsed one-decimal value is within one twentieth of the
original. -/
theorem toFixed1_close_aux (q : ℚ) : |parseFixed1Value q - q| ≤ 1/20 := by
  have h1 : (toFixed1Round |q| : ℚ) ≤ |q| * 10 + 1/2 := Int.floor_le _
  have h2 : |q| * 10 + 1/2 < toFixed1Round |q| + 1 := Int.lt_floor_add_one _
  rw [parseFixed1Value]
  rcases lt_or_le q 0 with hq | hq
  · rw [if_pos hq, abs_of_neg hq] at *
    rw [abs_le]
    constructor <;> [nlinarith; nlinarith]
  · rw [if_neg (not_lt.mpr hq), abs_of_nonneg hq] at *
    rw [abs_le]
    constructor <;> [nlinarith; nlinarith]

/-- Away from the interval (−1/20, 0), formatting the re-parsed value
reproduces the string. -/
theorem toFixed1_idem_aux (q : ℚ) (h : q ≤ -1/20 ∨ 0 ≤ q) :
    jsToFixed1 (parseFixed1Value q) = jsToFixed1 q := by
  set n : ℤ := toFixed1Round |q| with hn
  rcases h with h | h
  · have hq : q < 0 := by linarith
    have hge : 1 ≤ n := by
      rw [hn, toFixed1Round]
      refine Int.le_floor.mpr ?_
      rw [abs_of_neg hq]
      push_cast
      linarith
    have hv : parseFixed1Value q = -(n : ℚ) / 10 := by
      rw [parseFixed1Value, if_pos hq, ← hn]
      ring
    have hvneg : parseFixed1Value q < 0 := by
      rw [hv]
      have : (1 : ℚ) ≤ (n : ℚ) := by exact_mod_cast hge
      linarith
    have habs : |parseFixed1Value q| = (n : ℚ) / 10 := by
      rw [abs_of_neg hvneg, hv]
      ring
    have hround : toFixed1Round |parseFixed1Value q| = n := by
      rw [toFixed1Round, habs]
      have he : (n : ℚ) / 10 * 10 + 1/2 = (n : ℚ) + 1/2 := by ring
      rw [he, Int.floor_int_add]
      norm_num
    rw [jsToFixed1, jsToFixed1, if_pos hq, if_pos hvneg, hround]
  · have hge : 0 ≤ n := toFixed1Round_nonneg _ (abs_nonneg q)
    have hq : ¬ (q < 0) := not_lt.mpr h
    have hv : parseFixed1Value q = (n : ℚ) / 10 := by
      rw [parseFixed1Value, if_neg hq, ← hn]
      ring
    have hvnonneg : 0 ≤ parseFixed1Value q := by
      rw [hv]
      positivity
    have habs : |parseFixed1Value q| = (n : ℚ) / 10 := by
      rw [abs_of_nonneg hvnonneg, hv]
    have hround : toFixed1Round |parseFixed1Value q| = n := by
      rw [toFixed1Round, habs]
      have he : (n : ℚ) / 10 * 10 + 1/2 = (n : ℚ) + 1/2 := by ring
      rw [he, Int.floor_int_add]
      norm_num
    rw [jsToFixed1, jsToFixed1, if_neg hq, if_neg (not_lt.mpr hvnonneg), hround]

/-- C8 (amended): for every score the re-parsed one-decimal value is within
0.05 of the original, and for every score outside the open interval
(−0.05, 0) formatting the re-parsed value yields the same string; strictly
between −0.05 and 0 the string is "-0.0", which re-parses to 0 and
re-formats to "0.0". -/
theorem toFixed1_roundtrip (q : ℚ) :
    |parseFixed1Value q - q| ≤ 1/20 ∧
    (q ≤ -1/20 ∨ 0 ≤ q → jsToFixed1 (parseFixed1Value q) = jsToFixed1 q) :=
  ⟨toFixed1_close_aux q, toFixed1_idem_aux q⟩

/-- C8 witness: the round trip at the concrete score 3. -/
theorem toFixed1_roundtrip_witness :
    |parseFixed1Value (3 : ℚ) - 3| ≤ 1/20 ∧
    jsToFixed1 (parseFixed1Value (3 : ℚ)) = jsToFixed1 (3 : ℚ) :=
  ⟨(toFixed1_roundtrip 3).1, (toFixed1_roundtrip 3).2 (Or.inr (by decide))⟩

/-- C8 counterexample: at the score −0.01 the format/re-parse/format round
trip does not reproduce the string: formatting gives "-0.0", re-parsing
gives 0, and formatting again gives "0.0". -/
theorem toFixed1_roundtrip_fails_on_neg_zero :
    jsToFixed1 (-1/100 : ℚ) = "-0.0" ∧
    parseFixed1Value (-1/100 : ℚ) = 0 ∧
    jsToFixed1 (parseFixed1Value (-1/100 : ℚ)) = "0.0" ∧
    jsToFixed1 (parseFixed1Value (-1/100 : ℚ)) ≠ jsToFixed1 (-1/100 : ℚ) := by
  have hneg : (-1/100 : ℚ) < 0 := by norm_num
  have h1 : toFixed1Round |(-1/100 : ℚ)| = 0 := by
    rw [toFixed1Round, abs_of_neg hneg]
    norm_num
  have hs1 : jsToFixed1 (-1/100 : ℚ) = "-0.0" := by
    rw [jsToFixed1, if_pos hneg, h1]
    rfl
  have hv : parseFixed1Value (-1/100 : ℚ) = 0 := by
    rw [parseFixed1Value, if_pos hneg, h1]
    norm_num
  have hs2 : jsToFixed1 (parseFixed1Value (-1/100 : ℚ)) = "0.0" := by
    rw [hv, jsToFixed1, if_neg (by norm_num : ¬ ((0:ℚ) < 0))]
    have h2 : toFixed1Round |(0 : ℚ)| = 0 := by
      rw [toFixed1Round, abs_zero]
      norm_num
    rw [h2]
    rfl
  refine ⟨hs1, hv, hs2, ?_⟩
  rw [hs1, hs2]
  decide

/-- C9: scores outside [0, 9] raise no error anywhere: every valid category
still gets a feedback string, the color class is still one of the four, the
progress percentage is exactly score/9·100 with no clamping — above 100 per
cent for scores above 9 — and the same thresholds classify out-of-range
scores (negative to the bottom tier, above 9 to the top tier). -/
theorem out_of_domain_scores_accepted (s : ℚ) (h : s < 0 ∨ 9 < s) :
    (∀ c, c ∈ validCategories → ∃ msg, getFeedback s (some c) = .ok msg) ∧
    getScoreClass s ∈ ["score-excellent", "score-good", "score-fair", "score-poor"] ∧
    progressBarPercentage s = s / 9 * 100 ∧
    (9 < s → 100 < progressBarPercentage s) ∧
    (s < 0 → classifyScore s = .needsImprovement ∧ getScoreClass s = "score-poor") ∧
    (9 < s → classifyScore s = .excellent ∧ getScoreClass s = "score-excellent") := by
  refine ⟨?_, ?_, rfl, ?_, ?_, ?_⟩
  · intro c hc
    simp only [validCategories, List.mem_cons, List.not_mem_nil, or_false] at hc
    rcases hc with rfl | rfl | rfl | rfl | rfl
    · exact ⟨_, getFeedback_eq_tierMessage s _ overallMessages rfl⟩
    · exact ⟨_, getFeedback_eq_tierMessage s _ pronunciationMessages rfl⟩
    · exact ⟨_, getFeedback_eq_tierMessage s _ fluencyMessages rfl⟩
    · exact ⟨_, getFeedback_eq_tierMessage s _ vocabularyMessages rfl⟩
    · exact ⟨_, getFeedback_eq_tierMessage s _ grammarMessages rfl⟩
  · unfold getScoreClass
    split_ifs <;> simp
  · intro h9
    unfold progressBarPercentage
    have h1 : (1:ℚ) < s / 9 := by
      rw [lt_div_iff₀ (by norm_num : (0:ℚ) < 9)]
      linarith
    nlinarith
  · intro hneg
    constructor
    · unfold classifyScore
      split_ifs <;> first | rfl | (exfalso; linarith)
    · unfold getScoreClass
      split_ifs <;> first | rfl | (exfalso; linarith)
  · intro h9
    constructor
    · unfold classifyScore
      split_ifs <;> first | rfl | (exfalso; linarith)
    · unfold getScoreClass
      split_ifs <;> first | rfl | (exfalso; linarith)

/-- C9 witness: the score 10 renders a progress bar wider than 100 per
cent. -/
theorem out_of_domain_scores_accepted_witness :
    100 < progressBarPercentage 10 :=
  (out_of_domain_scores_accepted 10 (Or.inr (by decide))).2.2.2.1 (by decide)

/-- C10: a feedback call that omits the category argument uses the default
'overall': it returns exactly what the explicit 'overall' call returns. -/
theorem getFeedback_default_category (s : ℚ) :
    getFeedback s none = getFeedback s (some "overall") := rfl
